import Mathlib

/-!
Verification of the command-dispatch and argument-marshaling layer of the
mcp-kaggle-tool MCP server (src/index.ts, current tool-name generation).

The TypeScript handler is shallowly embedded: JavaScript dynamic values are
modelled by `JsVal`, JSON documents by `Json`, the external `kaggle` process
and the filesystem by an explicit `Env` oracle, and each tool case of the
`CallToolRequestSchema` handler by a Lean function returning the encoded
result together with the ordered list of side-effect events it performs.
-/

namespace KaggleMcp

/-- A JavaScript runtime value as it can appear in a tool's raw parameter
object (`args as any`): `undefined`, `null`, a boolean, a number or a
string.  Used for the fields the handler probes with `||` (truthiness) or
with strict inequality `!== false`. -/
inductive JsVal where
  | undefined
  | null
  | bool (b : Bool)
  | num (n : Int)
  | str (s : String)
deriving DecidableEq, Repr

/-- JavaScript truthiness of a `JsVal`: `undefined`, `null`, `false`, `0`
and `""` are falsy, everything else is truthy. -/
def jsTruthy : JsVal → Bool
  | .undefined => false
  | .null => false
  | .bool b => b
  | .num n => n != 0
  | .str s => s != ""

/-- A JSON document, the result of `JSON.parse` on the external process's
standard output or on the credential file. -/
inductive Json where
  | null
  | bool (b : Bool)
  | num (n : Int)
  | str (s : String)
  | arr (elems : List Json)
  | obj (fields : List (String × Json))

/-- `s || d` for a string-valued (or absent) JavaScript expression: the
string when it is truthy (non-empty), the default otherwise. -/
def strOr (v : Option String) (d : String) : String :=
  match v with
  | some s => if s = "" then d else s
  | none => d

/-- Truthiness of a string-or-undefined JavaScript value (`if (x)`). -/
def strTruthy (v : Option String) : Bool :=
  match v with
  | some s => s != ""
  | none => false

/-- `n || d` for a number-valued (or absent) JavaScript expression: the
number when truthy (non-zero), the default otherwise. -/
def numOr (v : Option Int) (d : Int) : Int :=
  match v with
  | some n => if n = 0 then d else n
  | none => d

/-- Node's `path.join` restricted to the plain segment shapes the handler
uses (no `..`, no trailing separators): empty segments are skipped,
non-empty ones are joined with `/`. -/
def pathJoin (a b : String) : String :=
  if a = "" then b else if b = "" then a else a ++ "/" ++ b

/-! ### JSON.parse model

A fueled recursive-descent parser over the character list of the input.
`JSON.parse` succeeds only when the whole input (up to trailing
whitespace) is one JSON value; numbers are modelled as integers. -/

/-- Skip JSON whitespace (space, tab, newline, carriage return). -/
def skipWs : List Char → List Char
  | [] => []
  | c :: cs => if c = ' ' || c = '\n' || c = '\t' || c = '\r' then skipWs cs else c :: cs

/-- Value of one hexadecimal digit. -/
def hexVal (c : Char) : Option Nat :=
  if c.isDigit then some (c.toNat - 48)
  else if 'a' ≤ c ∧ c ≤ 'f' then some (c.toNat - 87)
  else if 'A' ≤ c ∧ c ≤ 'F' then some (c.toNat - 55)
  else none

/-- Single-character JSON string escapes. -/
def escMap (c : Char) : Option Char :=
  if c = '"' then some '"'
  else if c = '\\' then some '\\'
  else if c = '/' then some '/'
  else if c = 'n' then some '\n'
  else if c = 't' then some '\t'
  else if c = 'r' then some '\r'
  else if c = 'b' then some (Char.ofNat 8)
  else if c = 'f' then some (Char.ofNat 12)
  else none

/-- Parse the body of a JSON string after the opening quote, returning the
decoded characters and the remaining input after the closing quote.
Unescaped control characters are rejected, as in `JSON.parse`. -/
def parseStrChars : List Char → Option (List Char × List Char)
  | [] => none
  | '"' :: cs => some ([], cs)
  | '\\' :: 'u' :: h1 :: h2 :: h3 :: h4 :: cs =>
    match hexVal h1, hexVal h2, hexVal h3, hexVal h4 with
    | some a, some b, some c, some d =>
      (parseStrChars cs).map fun r => (Char.ofNat (((a * 16 + b) * 16 + c) * 16 + d) :: r.1, r.2)
    | _, _, _, _ => none
  | '\\' :: e :: cs =>
    match escMap e with
    | some ec => (parseStrChars cs).map fun r => (ec :: r.1, r.2)
    | none => none
  | c :: cs =>
    if c.toNat < 32 then none
    else (parseStrChars cs).map fun r => (c :: r.1, r.2)

/-- Accumulate a decimal digit list into a natural number. -/
def digitsVal : List Char → Nat → Nat
  | [], acc => acc
  | c :: cs, acc => digitsVal cs (acc * 10 + (c.toNat - 48))

/-- Parse a nonempty run of decimal digits. -/
def parseNatNum (cs : List Char) : Option (Nat × List Char) :=
  let digits := cs.takeWhile Char.isDigit
  if digits.isEmpty then none
  else some (digitsVal digits 0, cs.dropWhile Char.isDigit)

mutual

/-- Parse one JSON value.  The fuel argument strictly decreases on every
recursive call; `parseJson` supplies enough fuel for any input. -/
def parseVal : Nat → List Char → Option (Json × List Char)
  | 0, _ => none
  | Nat.succ fuel, cs =>
    match skipWs cs with
    | 'n' :: 'u' :: 'l' :: 'l' :: rest => some (Json.null, rest)
    | 't' :: 'r' :: 'u' :: 'e' :: rest => some (Json.bool true, rest)
    | 'f' :: 'a' :: 'l' :: 's' :: 'e' :: rest => some (Json.bool false, rest)
    | '"' :: rest =>
      match parseStrChars rest with
      | some (chars, rest2) => some (Json.str (String.mk chars), rest2)
      | none => none
    | '-' :: rest =>
      match parseNatNum rest with
      | some (n, rest2) => some (Json.num (-(Int.ofNat n)), rest2)
      | none => none
    | c :: rest =>
      if c = '[' then parseArrOpen fuel rest
      else if c = Char.ofNat 123 then parseObjOpen fuel rest
      else if c.isDigit then
        match parseNatNum (c :: rest) with
        | some (n, rest2) => some (Json.num (Int.ofNat n), rest2)
        | none => none
      else none
    | [] => none

/-- Parse the contents of an array after the opening bracket. -/
def parseArrOpen : Nat → List Char → Option (Json × List Char)
  | 0, _ => none
  | Nat.succ fuel, cs =>
    match skipWs cs with
    | ']' :: rest => some (Json.arr [], rest)
    | cs2 =>
      match parseVal fuel cs2 with
      | some (v, rest2) =>
        match parseArrTail fuel rest2 with
        | some (vs, rest3) => some (Json.arr (v :: vs), rest3)
        | none => none
      | none => none

/-- Parse `, value`* `]` after the first element of an array. -/
def parseArrTail : Nat → List Char → Option (List Json × List Char)
  | 0, _ => none
  | Nat.succ fuel, cs =>
    match skipWs cs with
    | ']' :: rest => some ([], rest)
    | ',' :: rest =>
      match parseVal fuel rest with
      | some (v, rest2) =>
        match parseArrTail fuel rest2 with
        | some (vs, rest3) => some (v :: vs, rest3)
        | none => none
      | none => none
    | _ => none

/-- Parse one `"key": value` member of an object. -/
def parseMember : Nat → List Char → Option ((String × Json) × List Char)
  | 0, _ => none
  | Nat.succ fuel, cs =>
    match skipWs cs with
    | '"' :: rest =>
      match parseStrChars rest with
      | some (kchars, rest2) =>
        match skipWs rest2 with
        | ':' :: rest3 =>
          match parseVal fuel rest3 with
          | some (v, rest4) => some ((String.mk kchars, v), rest4)
          | none => none
        | _ => none
      | none => none
    | _ => none

/-- Parse the contents of an object after the opening brace. -/
def parseObjOpen : Nat → List Char → Option (Json × List Char)
  | 0, _ => none
  | Nat.succ fuel, cs =>
    match skipWs cs with
    | [] => none
    | c :: rest =>
      if c = Char.ofNat 125 then some (Json.obj [], rest)
      else
        match parseMember fuel (c :: rest) with
        | some (f, rest2) =>
          match parseObjTail fuel rest2 with
          | some (fs, rest3) => some (Json.obj (f :: fs), rest3)
          | none => none
        | none => none

/-- Parse `, member`* and the closing brace after the first member. -/
def parseObjTail : Nat → List Char → Option (List (String × Json) × List Char)
  | 0, _ => none
  | Nat.succ fuel, cs =>
    match skipWs cs with
    | [] => none
    | ',' :: rest =>
      match parseMember fuel rest with
      | some (f, rest2) =>
        match parseObjTail fuel rest2 with
        | some (fs, rest3) => some (f :: fs, rest3)
        | none => none
      | none => none
    | c :: rest =>
      if c = Char.ofNat 125 then some ([], rest)
      else none

end

/-- Model of `JSON.parse`: parse one value and require that only
whitespace remains. -/
def parseJson (s : String) : Option Json :=
  match parseVal (2 * s.length + 4) s.data with
  | some (v, rest) => if skipWs rest = [] then some v else none
  | none => none

/-! ### JSON.stringify model

`JSON.stringify(value, null, 2)`: two-space pretty printing, used for the
staged files and for re-serializing parsed process output. -/

/-- Hexadecimal digit for a value below 16. -/
def hexDigit (n : Nat) : Char :=
  if n < 10 then Char.ofNat (48 + n) else Char.ofNat (87 + n)

/-- Escape one character of a JSON string the way `JSON.stringify` does. -/
def escJsonChar (c : Char) : List Char :=
  if c = '"' then ['\\', '"']
  else if c = '\\' then ['\\', '\\']
  else if c = '\n' then ['\\', 'n']
  else if c = '\t' then ['\\', 't']
  else if c = '\r' then ['\\', 'r']
  else if c = Char.ofNat 8 then ['\\', 'b']
  else if c = Char.ofNat 12 then ['\\', 'f']
  else if c.toNat < 32 then ['\\', 'u', '0', '0', hexDigit (c.toNat / 16), hexDigit (c.toNat % 16)]
  else [c]

/-- Serialize a string as a quoted JSON string literal. -/
def quoteJson (s : String) : String :=
  String.mk ('"' :: (s.data.map escJsonChar).flatten ++ ['"'])

/-- A run of `n` spaces. -/
def nspaces (n : Nat) : String :=
  String.mk (List.replicate n ' ')

mutual

/-- `JSON.stringify(v, null, 2)` at the given current indentation. -/
def renderJson : Json → Nat → String
  | .null, _ => "null"
  | .bool b, _ => if b then "true" else "false"
  | .num n, _ => toString n
  | .str s, _ => quoteJson s
  | .arr [], _ => "[]"
  | .arr (x :: xs), ind =>
    "[\n" ++ renderItems (x :: xs) (ind + 2) ++ "\n" ++ nspaces ind ++ "]"
  | .obj [], _ => "\x7b\x7d"
  | .obj (f :: fs), ind =>
    "\x7b\n" ++ renderFields (f :: fs) (ind + 2) ++ "\n" ++ nspaces ind ++ "\x7d"

/-- Render array elements, one per line, comma separated. -/
def renderItems : List Json → Nat → String
  | [], _ => ""
  | [x], ind => nspaces ind ++ renderJson x ind
  | x :: y :: xs, ind => nspaces ind ++ renderJson x ind ++ ",\n" ++ renderItems (y :: xs) ind

/-- Render object members, one per line, comma separated. -/
def renderFields : List (String × Json) → Nat → String
  | [], _ => ""
  | [(k, v)], ind => nspaces ind ++ quoteJson k ++ ": " ++ renderJson v ind
  | (k, v) :: g :: fs, ind =>
    nspaces ind ++ quoteJson k ++ ": " ++ renderJson v ind ++ ",\n" ++ renderFields (g :: fs) ind

end

mutual

/-- JavaScript `String(v)` coercion of a parsed JSON value, as used by
template literals such as `` `... ${result}` `` in the success messages:
strings verbatim, arrays joined by commas with `null` elements blank,
objects as `[object Object]`. -/
def jsDisplay : Json → String
  | .null => "null"
  | .bool b => if b then "true" else "false"
  | .num n => toString n
  | .str s => s
  | .arr xs => jsDisplayList xs
  | .obj _ => "[object Object]"

/-- `Array.prototype.join(",")` on display values. -/
def jsDisplayList : List Json → String
  | [] => ""
  | [Json.null] => ""
  | [x] => jsDisplay x
  | Json.null :: y :: xs => "," ++ jsDisplayList (y :: xs)
  | x :: y :: xs => jsDisplay x ++ "," ++ jsDisplayList (y :: xs)

end

/-! ### runKaggleCommand output handling

`runKaggleCommand` tries `JSON.parse(stdout)` and returns the parsed value
on success, the raw stdout string otherwise; in JavaScript both live in the
same dynamic type, so a raw string and a parsed JSON string coincide. -/

/-- The dynamic value `runKaggleCommand` resolves with for a given stdout:
the parsed JSON value if stdout parses, else the stdout string itself. -/
def runKaggleResult (stdout : String) : Json :=
  match parseJson stdout with
  | some v => v
  | none => Json.str stdout

/-- The result-text rule `typeof result === "string" ? result :
JSON.stringify(result, null, 2)` shared by `list_notebooks`,
`get_notebook_status`, `search_datasets` and `list_competitions`. -/
def formatResult (v : Json) : String :=
  match v with
  | .str s => s
  | .null => renderJson .null 0
  | .bool b => renderJson (.bool b) 0
  | .num n => renderJson (.num n) 0
  | .arr xs => renderJson (.arr xs) 0
  | .obj fs => renderJson (.obj fs) 0

/-! ### Handler state: events, results, environment, parameters -/

/-- A side-effect performed by a tool case, in execution order: temporary
directory creation (`fs.mkdtemp`), file writes, directory creation
(`fs.mkdir`), file copies, recursive removal (`fs.rm`), and invocation of
the external `kaggle` process with a built argument vector. -/
inductive Event where
  | mkdtemp (dir : String)
  | writeFile (p : String) (content : String)
  | mkdir (p : String)
  | copyFile (src dst : String)
  | rmdir (dir : String)
  | extRun (argv : List String)
deriving DecidableEq, Repr

/-- One element of a ToolResult's `content` list. -/
structure TextContent where
  type : String
  text : String
deriving DecidableEq, Repr

/-- The uniform reply envelope returned by the handler. -/
structure ToolResult where
  content : List TextContent
deriving DecidableEq, Repr

/-- What the handler does as seen by the transport: either it throws (the
promise rejects, failing the call outright) or it returns a ToolResult. -/
inductive Outcome where
  | thrown (msg : String)
  | result (r : ToolResult)
deriving DecidableEq, Repr

/-- The ambient world the handler runs against: the relevant environment
variables, the suffix `fs.mkdtemp` appends, the clock for `Date.now()`,
the external process (`argv` mapped to its stdout on exit code 0, or to
the failure message of the rejected `exec` promise), file existence for
`fs.access`, and readable file contents for `fs.readFile`. -/
structure Env where
  home : Option String
  userProfile : Option String
  tmpdir : Option String
  tempSuffix : String
  now : Nat
  run : List String → Except String String
  fileExists : String → Bool
  readFile : String → Option String

/-- The raw parameter object of a call (`request.params.arguments`), one
field per property any tool reads; absent properties are `none` or
`JsVal.undefined`.  Fields the handler probes with JavaScript truthiness or
`!== false` are kept as raw `JsVal`s. -/
structure Args where
  title : String := ""
  code : String := ""
  language : Option String := none
  isPrivate : JsVal := .undefined
  enableGpu : JsVal := .undefined
  enableInternet : JsVal := .undefined
  datasetSources : Option (List String) := none
  saveLocally : JsVal := .undefined
  localSavePath : Option String := none
  page : Option Int := none
  pageSize : Option Int := none
  notebookSlug : Option String := none
  localPath : Option String := none
  mode : Option String := none
  search : Option String := none
  group : Option String := none
  category : Option String := none
  sortBy : Option String := none
  outputPath : Option String := none
  includeNotebook : JsVal := .undefined
  metadata : JsVal := .undefined

/-- Wrap a text message in the single-element ToolResult shape used by
every return site of the handler. -/
def textResult (s : String) : ToolResult :=
  { content := [{ type := "text", text := s }] }

/-- `runKaggleCommand`: on a rejected `exec` promise rethrow with the
`Kaggle command failed:` prefix, otherwise hand back the stdout after the
JSON-parse attempt (stderr is only logged and has no effect). -/
def runKaggle (env : Env) (argv : List String) : Except String Json :=
  match env.run argv with
  | .ok stdout => .ok (runKaggleResult stdout)
  | .error m => .error ("Kaggle command failed: " ++ m)

/-- First binding of a key in an object's field list. -/
def lookupField : List (String × Json) → String → Option Json
  | [], _ => none
  | (k', v) :: fs, k => if k' = k then some v else lookupField fs k

/-- JavaScript property lookup on a parsed JSON value: defined for object
fields, `undefined` (here `none`) for everything else. -/
def jsonLookup : Json → String → Option Json
  | .obj fields, k => lookupField fields k
  | _, _ => none

/-- Template interpolation of a JSON value or `undefined`. -/
def displayOptJson : Option Json → String
  | some v => jsDisplay v
  | none => "undefined"

/-! ### create_notebook staging artifacts (index.ts lines 360-445) -/

/-- `v || false`: the value itself when truthy, the boolean `false`
otherwise — exactly the `enable_gpu: notebookArgs.enableGpu || false`
expression. -/
def jsOrFalse (v : JsVal) : JsVal :=
  if jsTruthy v then v else .bool false

/-- The metadata-descriptor object `create_notebook` builds: `is_private`
and `enable_internet` via strict `!== false`, `enable_gpu` via `|| false`,
the id derived from `Date.now()`. -/
structure KernelMetadata where
  id : String
  title : String
  code_file : String
  language : String
  kernel_type : String
  is_private : Bool
  enable_gpu : JsVal
  enable_internet : Bool
  dataset_sources : List String
  competition_sources : List String
  kernel_sources : List String
deriving DecidableEq, Repr

/-- Build the metadata-descriptor object from the raw parameters and the
current clock value. -/
def buildMetadata (now : Nat) (a : Args) : KernelMetadata :=
  { id := "new-notebook-" ++ toString now
    title := a.title
    code_file := "notebook.ipynb"
    language := strOr a.language "python"
    kernel_type := "notebook"
    is_private := !(a.isPrivate == JsVal.bool false)
    enable_gpu := jsOrFalse a.enableGpu
    enable_internet := !(a.enableInternet == JsVal.bool false)
    dataset_sources := (a.datasetSources).getD []
    competition_sources := []
    kernel_sources := [] }

/-- Embed a `JsVal` into a JSON document for serialization (only reached
for the truthy values `|| false` lets through, plus booleans). -/
def jsValJson : JsVal → Json
  | .undefined => .null
  | .null => .null
  | .bool b => .bool b
  | .num n => .num n
  | .str s => .str s

/-- The metadata-descriptor as the JSON document written to
`notebook-metadata.json`. -/
def metadataJson (m : KernelMetadata) : Json :=
  .obj [("id", .str m.id), ("title", .str m.title), ("code_file", .str m.code_file),
        ("language", .str m.language), ("kernel_type", .str m.kernel_type),
        ("is_private", .bool m.is_private), ("enable_gpu", jsValJson m.enable_gpu),
        ("enable_internet", .bool m.enable_internet),
        ("dataset_sources", .arr (m.dataset_sources.map Json.str)),
        ("competition_sources", .arr []), ("kernel_sources", .arr [])]

/-- The notebook-document object: a single code cell holding `code`, with
the kernelspec chosen by strict comparison of the raw `language` value
against `"r"`. -/
def buildNotebookJson (a : Args) : Json :=
  .obj [("cells", .arr [.obj [("cell_type", .str "code"), ("source", .str a.code),
                              ("execution_count", .null), ("outputs", .arr [])]]),
        ("metadata", .obj [("kernelspec", .obj [
            ("language", .str (strOr a.language "python")),
            ("display_name", .str (if a.language = some "r" then "R" else "Python 3")),
            ("name", .str (if a.language = some "r" then "ir" else "python3"))])]),
        ("nbformat", .num 4),
        ("nbformat_minor", .num 4)]

/-! ### Tool cases (the `switch (name)` bodies)

Each case returns `Except String ToolResult` — `.error` is a thrown
JavaScript error, caught and encoded by the dispatcher's `catch` — paired
with the ordered list of side effects performed before return. -/

/-- The fixed guidance message `auth_check` returns when the credential
file cannot be read. -/
def guidanceText : String :=
  "❌ Kaggle API credentials not found. Please set up your Kaggle API key:\n\n1. Go to https://www.kaggle.com/account\n2. Create New API Token\n3. Place the downloaded kaggle.json in ~/.kaggle/"

/-- `process.env.HOME || process.env.USERPROFILE || ""`. -/
def homeDirOf (env : Env) : String :=
  strOr env.home (strOr env.userProfile "")

/-- `path.join(homeDir, ".kaggle", "kaggle.json")`. -/
def kaggleConfigPath (env : Env) : String :=
  pathJoin (pathJoin (homeDirOf env) ".kaggle") "kaggle.json"

/-- `auth_check`: read the credential file; any failure of
`fs.access`/`fs.readFile`/`JSON.parse` falls into the inner catch and
yields the guidance message as a normal result. -/
def authCheck (env : Env) : Except String ToolResult × List Event :=
  match env.readFile (kaggleConfigPath env) with
  | some content =>
    match parseJson content with
    | some config =>
      (.ok (textResult ("✅ Kaggle API credentials found for user: "
          ++ displayOptJson (jsonLookup config "username"))), [])
    | none => (.ok (textResult guidanceText), [])
  | none => (.ok (textResult guidanceText), [])

/-- `list_notebooks`: paginated `kernels list --mine` with `-v`. -/
def listNotebooks (env : Env) (a : Args) : Except String ToolResult × List Event :=
  let page := numOr a.page 1
  let pageSize := numOr a.pageSize 20
  let argv := ["kernels", "list", "--mine", "--page", toString page,
               "--page-size", toString pageSize, "-v"]
  match runKaggle env argv with
  | .ok result => (.ok (textResult (formatResult result)), [.extRun argv])
  | .error m => (.error m, [.extRun argv])

/-- `create_notebook`: stage the document/descriptor pair in a fresh
temporary directory, push it, optionally copy the pair into
`localSavePath`, then remove the temporary directory.  The removal sits
on the straight-line path after the push, not in a `finally`. -/
def createNotebook (env : Env) (a : Args) : Except String ToolResult × List Event :=
  let tempDir := pathJoin (strOr env.tmpdir "/tmp") ("kaggle-" ++ env.tempSuffix)
  let notebookPath := pathJoin tempDir "notebook.ipynb"
  let metadataPath := pathJoin tempDir "notebook-metadata.json"
  let staging : List Event :=
    [.mkdtemp tempDir,
     .writeFile notebookPath (renderJson (buildNotebookJson a) 0),
     .writeFile metadataPath (renderJson (metadataJson (buildMetadata env.now a)) 0)]
  match runKaggle env ["kernels", "push", "-p", tempDir] with
  | .error m => (.error m, staging ++ [.extRun ["kernels", "push", "-p", tempDir]])
  | .ok result =>
    if jsTruthy a.saveLocally then
      let localSavePath := strOr a.localSavePath "./kaggle-notebook"
      (.ok (textResult ("✅ Notebook created: " ++ a.title ++ "\n" ++ jsDisplay result
          ++ "\n📁 Files saved locally to: " ++ localSavePath)),
       staging ++ [.extRun ["kernels", "push", "-p", tempDir],
                   .mkdir localSavePath,
                   .copyFile notebookPath (pathJoin localSavePath "notebook.ipynb"),
                   .copyFile metadataPath (pathJoin localSavePath "notebook-metadata.json"),
                   .rmdir tempDir])
    else
      (.ok (textResult ("✅ Notebook created: " ++ a.title ++ "\n" ++ jsDisplay result)),
       staging ++ [.extRun ["kernels", "push", "-p", tempDir], .rmdir tempDir])

/-- `get_notebook_status`: `kernels status <slug>`. -/
def getNotebookStatus (env : Env) (a : Args) : Except String ToolResult × List Event :=
  let argv := ["kernels", "status", (a.notebookSlug).getD ""]
  match runKaggle env argv with
  | .ok result => (.ok (textResult (formatResult result)), [.extRun argv])
  | .error m => (.error m, [.extRun argv])

/-- `download_notebook_output`: ensure the output directory exists, then
`kernels output <slug> -p <outputPath>`. -/
def downloadNotebookOutput (env : Env) (a : Args) : Except String ToolResult × List Event :=
  let outputPath := strOr a.outputPath "./kaggle-outputs"
  let argv := ["kernels", "output", (a.notebookSlug).getD "", "-p", outputPath]
  match runKaggle env argv with
  | .ok result =>
    (.ok (textResult ("✅ Notebook output downloaded to: " ++ outputPath ++ "\n"
        ++ jsDisplay result)), [.mkdir outputPath, .extRun argv])
  | .error m => (.error m, [.mkdir outputPath, .extRun argv])

/-- `search_datasets`: `datasets list -s "<search>" --page <page> -v`,
the search term wrapped in literal double quotes. -/
def searchDatasets (env : Env) (a : Args) : Except String ToolResult × List Event :=
  let page := numOr a.page 1
  let argv := ["datasets", "list", "-s", "\"" ++ (a.search).getD "undefined" ++ "\"",
               "--page", toString page, "-v"]
  match runKaggle env argv with
  | .ok result => (.ok (textResult (formatResult result)), [.extRun argv])
  | .error m => (.error m, [.extRun argv])

/-- The argument vector `list_competitions` builds: `--group` and
`--category` only for truthy values differing from their sentinels
(`"general"` / `"all"`), `--sort-by` only for a truthy value, `-v` last. -/
def listCompetitionsArgv (group category sortBy : Option String) : List String :=
  let cmdArgs := ["competitions", "list"]
  let cmdArgs := match group with
    | some v => if v ≠ "" ∧ v ≠ "general" then cmdArgs ++ ["--group", v] else cmdArgs
    | none => cmdArgs
  let cmdArgs := match category with
    | some v => if v ≠ "" ∧ v ≠ "all" then cmdArgs ++ ["--category", v] else cmdArgs
    | none => cmdArgs
  let cmdArgs := match sortBy with
    | some v => if v ≠ "" then cmdArgs ++ ["--sort-by", v] else cmdArgs
    | none => cmdArgs
  cmdArgs ++ ["-v"]

/-- `list_competitions`: run the built vector and apply the shared
result-formatting rule. -/
def listCompetitions (env : Env) (a : Args) : Except String ToolResult × List Event :=
  let argv := listCompetitionsArgv a.group a.category a.sortBy
  match runKaggle env argv with
  | .ok result => (.ok (textResult (formatResult result)), [.extRun argv])
  | .error m => (.error m, [.extRun argv])

/-- `push_notebook`: `mode || "slug"` selects between push-by-slug and
push-from-directory; the local path must already hold
`notebook-metadata.json` or a descriptive error is thrown before any
process invocation. -/
def pushNotebook (env : Env) (a : Args) : Except String ToolResult × List Event :=
  let mode := strOr a.mode "slug"
  if mode = "slug" then
    match a.notebookSlug with
    | some slug =>
      if slug = "" then (.error "notebookSlug is required when mode is 'slug'", [])
      else
        match runKaggle env ["kernels", "push", slug] with
        | .ok result =>
          (.ok (textResult ("✅ Notebook pushed and execution started: " ++ slug ++ "\n"
              ++ jsDisplay result)), [.extRun ["kernels", "push", slug]])
        | .error m => (.error m, [.extRun ["kernels", "push", slug]])
    | none => (.error "notebookSlug is required when mode is 'slug'", [])
  else if mode = "local" then
    match a.localPath with
    | some p =>
      if p = "" then (.error "localPath is required when mode is 'local'", [])
      else if env.fileExists (pathJoin p "notebook-metadata.json") then
        match runKaggle env ["kernels", "push", "-p", p] with
        | .ok result =>
          (.ok (textResult ("✅ Notebook pushed and execution started from: " ++ p ++ "\n"
              ++ jsDisplay result)), [.extRun ["kernels", "push", "-p", p]])
        | .error m => (.error m, [.extRun ["kernels", "push", "-p", p]])
      else (.error ("notebook-metadata.json not found in " ++ p), [])
    | none => (.error "localPath is required when mode is 'local'", [])
  else (.error ("Invalid mode: " ++ mode ++ ". Use 'slug' or 'local'"), [])

/-- The pull vector of `save_notebook_metadata`: `--metadata` is appended
when `includeNotebook` (computed as `!== false`) is *false*. -/
def saveNotebookMetadataArgv (slug localPath : String) (includeNotebookV : JsVal) : List String :=
  let includeNb := !(includeNotebookV == JsVal.bool false)
  let base := ["kernels", "pull", slug, "-p", localPath]
  if !includeNb then base ++ ["--metadata"] else base

/-- `save_notebook_metadata`: ensure the target directory, pull, report. -/
def saveNotebookMetadata (env : Env) (a : Args) : Except String ToolResult × List Event :=
  let slug := (a.notebookSlug).getD ""
  let localPath := strOr a.localPath "./kaggle-notebook"
  let includeNb := !(a.includeNotebook == JsVal.bool false)
  let argv := saveNotebookMetadataArgv slug localPath a.includeNotebook
  match runKaggle env argv with
  | .ok result =>
    (.ok (textResult ("✅ Notebook metadata" ++ (if includeNb then " and notebook" else "")
        ++ " saved to " ++ localPath ++ ":\n" ++ jsDisplay result)),
     [.mkdir localPath, .extRun argv])
  | .error m => (.error m, [.mkdir localPath, .extRun argv])

/-- The pull vector of `pull_notebook`: `--metadata` is appended when
`metadata` (computed as `!== false`) is *true* — the opposite condition
of `save_notebook_metadata`. -/
def pullNotebookArgv (slug localPath : String) (metadataV : JsVal) : List String :=
  let md := !(metadataV == JsVal.bool false)
  let base := ["kernels", "pull", slug, "-p", localPath]
  if md then base ++ ["--metadata"] else base

/-- `pull_notebook`: ensure the target directory, pull, report. -/
def pullNotebook (env : Env) (a : Args) : Except String ToolResult × List Event :=
  let slug := (a.notebookSlug).getD ""
  let localPath := strOr a.localPath "./kaggle-notebook"
  let argv := pullNotebookArgv slug localPath a.metadata
  match runKaggle env argv with
  | .ok result =>
    (.ok (textResult ("✅ Notebook pulled to " ++ localPath ++ ":\n" ++ jsDisplay result)),
     [.mkdir localPath, .extRun argv])
  | .error m => (.error m, [.mkdir localPath, .extRun argv])

/-! ### The dispatcher -/

/-- The tool names of the ToolCatalog served to `ListTools`, in catalog
order; the dispatch switch has exactly these cases. -/
def toolNames : List String :=
  ["auth_check", "list_notebooks", "create_notebook", "get_notebook_status",
   "download_notebook_output", "search_datasets", "list_competitions",
   "push_notebook", "save_notebook_metadata", "pull_notebook"]

/-- The `switch (name)` inside the `try`: route to the tool case, or
throw `Unknown tool: <name>`. -/
def dispatch (env : Env) (name : String) (a : Args) : Except String ToolResult × List Event :=
  if name = "auth_check" then authCheck env
  else if name = "list_notebooks" then listNotebooks env a
  else if name = "create_notebook" then createNotebook env a
  else if name = "get_notebook_status" then getNotebookStatus env a
  else if name = "download_notebook_output" then downloadNotebookOutput env a
  else if name = "search_datasets" then searchDatasets env a
  else if name = "list_competitions" then listCompetitions env a
  else if name = "push_notebook" then pushNotebook env a
  else if name = "save_notebook_metadata" then saveNotebookMetadata env a
  else if name = "pull_notebook" then pullNotebook env a
  else (.error ("Unknown tool: " ++ name), [])

/-- The `catch (error)` of the handler: a thrown error is re-encoded as a
normal ToolResult whose text is `Error: <message>`. -/
def encodeOutcome : Except String ToolResult × List Event → Outcome × List Event
  | (.ok r, evs) => (.result r, evs)
  | (.error m, evs) => (.result (textResult ("Error: " ++ m)), evs)

/-- The complete `CallToolRequestSchema` handler: a call with no
parameters object throws before the `try` (failing the transport call);
otherwise the dispatched case runs and any thrown error is caught and
encoded. -/
def handleCall (env : Env) (name : String) (args : Option Args) : Outcome × List Event :=
  match args with
  | none => (.thrown "No arguments provided", [])
  | some a => encodeOutcome (dispatch env name a)

/-- A minimal concrete world for evaluating the handler on sample calls:
no environment variables, a process that always fails, no files. -/
def baseEnv : Env :=
  { home := none, userProfile := none, tmpdir := none, tempSuffix := "abc123",
    now := 0, run := fun _ => .error "no process", fileExists := fun _ => false,
    readFile := fun _ => none }

/-- An empty parameter object: every property absent. -/
def emptyArgs : Args := {}

/-! ### Theorems -/

/-- A dispatched tool body, once pushed through the dispatcher's
catch-and-encode step, yields a single-element `"text"` ToolResult. -/
def EncodesText (b : Except String ToolResult × List Event) : Prop :=
  ∃ s, (encodeOutcome b).1 = Outcome.result (textResult s)

/-- `auth_check` always resolves to a single-text result. -/
theorem authCheck_text (env : Env) : EncodesText (authCheck env) := by
  unfold authCheck
  repeat' split
  all_goals exact ⟨_, rfl⟩

/-- `list_notebooks` resolves or throws; either encodes to a single text. -/
theorem listNotebooks_text (env : Env) (a : Args) : EncodesText (listNotebooks env a) := by
  unfold listNotebooks
  dsimp only
  repeat' split
  all_goals exact ⟨_, rfl⟩

/-- `create_notebook` resolves or throws; either encodes to a single text. -/
theorem createNotebook_text (env : Env) (a : Args) : EncodesText (createNotebook env a) := by
  unfold createNotebook
  dsimp only
  repeat' split
  all_goals exact ⟨_, rfl⟩

/-- `get_notebook_status` resolves or throws; either encodes to a single text. -/
theorem getNotebookStatus_text (env : Env) (a : Args) : EncodesText (getNotebookStatus env a) := by
  unfold getNotebookStatus
  dsimp only
  repeat' split
  all_goals exact ⟨_, rfl⟩

/-- `download_notebook_output` resolves or throws; either encodes to a single text. -/
theorem downloadNotebookOutput_text (env : Env) (a : Args) :
    EncodesText (downloadNotebookOutput env a) := by
  unfold downloadNotebookOutput
  dsimp only
  repeat' split
  all_goals exact ⟨_, rfl⟩

/-- `search_datasets` resolves or throws; either encodes to a single text. -/
theorem searchDatasets_text (env : Env) (a : Args) : EncodesText (searchDatasets env a) := by
  unfold searchDatasets
  dsimp only
  repeat' split
  all_goals exact ⟨_, rfl⟩

/-- `list_competitions` resolves or throws; either encodes to a single text. -/
theorem listCompetitions_text (env : Env) (a : Args) : EncodesText (listCompetitions env a) := by
  unfold listCompetitions
  dsimp only
  repeat' split
  all_goals exact ⟨_, rfl⟩

/-- `push_notebook` resolves or throws; either encodes to a single text. -/
theorem pushNotebook_text (env : Env) (a : Args) : EncodesText (pushNotebook env a) := by
  unfold pushNotebook
  dsimp only
  repeat' split
  all_goals exact ⟨_, rfl⟩

/-- `save_notebook_metadata` resolves or throws; either encodes to a single text. -/
theorem saveNotebookMetadata_text (env : Env) (a : Args) :
    EncodesText (saveNotebookMetadata env a) := by
  unfold saveNotebookMetadata
  dsimp only
  repeat' split
  all_goals exact ⟨_, rfl⟩

/-- `pull_notebook` resolves or throws; either encodes to a single text. -/
theorem pullNotebook_text (env : Env) (a : Args) : EncodesText (pullNotebook env a) := by
  unfold pullNotebook
  dsimp only
  repeat' split
  all_goals exact ⟨_, rfl⟩

/-- Every branch of every tool case resolves to either an `.ok` carrying a
single-text ToolResult or a thrown error, so the encoded outcome is always
a single-text result. -/
theorem dispatch_encodes (env : Env) (name : String) (a : Args) :
    EncodesText (dispatch env name a) := by
  unfold dispatch
  split
  · exact authCheck_text env
  split
  · exact listNotebooks_text env a
  split
  · exact createNotebook_text env a
  split
  · exact getNotebookStatus_text env a
  split
  · exact downloadNotebookOutput_text env a
  split
  · exact searchDatasets_text env a
  split
  · exact listCompetitions_text env a
  split
  · exact pushNotebook_text env a
  split
  · exact saveNotebookMetadata_text env a
  split
  · exact pullNotebook_text env a
  exact ⟨_, rfl⟩

/-- C6: a call delivered without a parameters object throws
`No arguments provided` before any dispatch, propagating to the transport;
with a parameters object present, the handler always returns a ToolResult
(the throw is the only uncaught failure). -/
theorem missing_args_fails_call (env : Env) (name : String) (a : Args) :
    (handleCall env name none).1 = Outcome.thrown "No arguments provided"
    ∧ ∃ r, (handleCall env name (some a)).1 = Outcome.result r := by
  refine ⟨rfl, ?_⟩
  obtain ⟨s, hs⟩ := dispatch_encodes env name a
  exact ⟨_, hs⟩

/-- C10: for every call with a parameters object, the handler returns a
ToolResult whose content is exactly one element of type `"text"`, on every
success path and on the shared error-encoding path alike. -/
theorem handler_single_text_result (env : Env) (name : String) (a : Args) :
    ∃ s, (handleCall env name (some a)).1
      = Outcome.result { content := [{ type := "text", text := s }] } := by
  obtain ⟨s, hs⟩ := dispatch_encodes env name a
  exact ⟨s, hs⟩

/-- C7: a present-parameters call whose tool name is outside the
ToolCatalog falls to the default case, whose thrown `Unknown tool: <name>`
is encoded as the normal result text `Error: Unknown tool: <name>`. -/
theorem unknown_tool_error_text (env : Env) (name : String) (a : Args)
    (h : name ∉ toolNames) :
    (handleCall env name (some a)).1
      = Outcome.result (textResult ("Error: " ++ ("Unknown tool: " ++ name))) := by
  simp only [toolNames, List.mem_cons, List.not_mem_nil, or_false] at h
  push_neg at h
  obtain ⟨h1, h2, h3, h4, h5, h6, h7, h8, h9, h10⟩ := h
  simp [handleCall, dispatch, encodeOutcome, h1, h2, h3, h4, h5, h6, h7, h8, h9, h10]

/-- Witness for C7 at the claim's own example name. -/
theorem unknown_tool_error_text_witness :
    (handleCall baseEnv "does_not_exist" (some emptyArgs)).1
      = Outcome.result (textResult "Error: Unknown tool: does_not_exist") :=
  (unknown_tool_error_text baseEnv "does_not_exist" emptyArgs (by decide)).trans rfl

/-- A world where the `kernels push` invocation fails. -/
def failPushEnv : Env := { baseEnv with run := fun _ => .error "boom" }

/-- A minimal valid `create_notebook` parameter object. -/
def createArgs : Args := { title := "t", code := "print(1)" }

/-- Supporting fact: on the success path (and only there) the staging
directory removal is reached — `fs.rm` runs after the push resolves. -/
theorem createNotebook_success_removes (env : Env) (a : Args) (stdout : String)
    (h : env.run ["kernels", "push", "-p",
        pathJoin (strOr env.tmpdir "/tmp") ("kaggle-" ++ env.tempSuffix)] = .ok stdout) :
    Event.rmdir (pathJoin (strOr env.tmpdir "/tmp") ("kaggle-" ++ env.tempSuffix))
      ∈ (createNotebook env a).2 := by
  unfold createNotebook
  dsimp only
  simp only [runKaggle, h]
  split <;> simp

/-- C1 (code bug): when the external push invocation fails, the
`create_notebook` case propagates the thrown error to the dispatcher's
catch and returns the encoded error result, but the unconditional-looking
`fs.rm(tempDir)` sits after the `await runKaggleCommand(...)`, so on the
failure path it is never reached: the trace holds the `mkdtemp` of the
staging directory and no `rm` of it — contradicting the spec's guarantee
that the temporary directory is removed on both success and failure. -/
theorem create_notebook_temp_dir_leak :
    (handleCall failPushEnv "create_notebook" (some createArgs)).1
      = Outcome.result (textResult "Error: Kaggle command failed: boom")
    ∧ Event.mkdtemp "/tmp/kaggle-abc123"
        ∈ (handleCall failPushEnv "create_notebook" (some createArgs)).2
    ∧ Event.rmdir "/tmp/kaggle-abc123"
        ∉ (handleCall failPushEnv "create_notebook" (some createArgs)).2
    ∧ ∀ d, Event.rmdir d ∉ (handleCall failPushEnv "create_notebook" (some createArgs)).2 := by
  have hev : (handleCall failPushEnv "create_notebook" (some createArgs)).2
      = [Event.mkdtemp "/tmp/kaggle-abc123",
         Event.writeFile "/tmp/kaggle-abc123/notebook.ipynb"
           (renderJson (buildNotebookJson createArgs) 0),
         Event.writeFile "/tmp/kaggle-abc123/notebook-metadata.json"
           (renderJson (metadataJson (buildMetadata 0 createArgs)) 0),
         Event.extRun ["kernels", "push", "-p", "/tmp/kaggle-abc123"]] := rfl
  refine ⟨rfl, ?_, ?_, ?_⟩
  · rw [hev]; simp
  · rw [hev]; simp
  · intro d; rw [hev]; simp

/-- A world whose home directory holds a credential file for `alice`,
alongside a second set environment-provided directory variable. -/
def aliceEnv : Env :=
  { baseEnv with
    home := some "/home/alice"
    userProfile := some "/cfgdir"
    readFile := fun _ => some "\x7b\"username\": \"alice\"\x7d" }

/-- C2 counterexample: the credential path is always
`<HOME || USERPROFILE || "">/.kaggle/kaggle.json`; with the home variable
set, setting the other environment-provided directory variable does not
override the location — no config-directory override exists, the second
variable is only a fallback consulted when the home variable is unset. -/
theorem auth_check_no_override :
    kaggleConfigPath aliceEnv = "/home/alice/.kaggle/kaggle.json"
    ∧ kaggleConfigPath aliceEnv ≠ "/cfgdir/.kaggle/kaggle.json"
    ∧ kaggleConfigPath { aliceEnv with home := none } = "/cfgdir/.kaggle/kaggle.json" := by
  refine ⟨rfl, by decide, rfl⟩

/-- C2 (amended): `auth_check` reads `.kaggle/kaggle.json` relative to the
HOME environment variable, falling back to USERPROFILE and then to the
empty string; on a present, parseable credential file it reports the
stored `username`, on absence it returns the guidance text (which contains
the setup URL) as a normal informational result — never an error. -/
theorem auth_check_reads_home_credentials (env : Env) (u h p : String) :
    (env.home = some h → h ≠ "" → homeDirOf env = h)
    ∧ (env.home = none → env.userProfile = some p → p ≠ "" → homeDirOf env = p)
    ∧ (env.home = none → env.userProfile = none → homeDirOf env = "")
    ∧ (env.readFile (kaggleConfigPath env) = none →
        (authCheck env).1 = .ok (textResult guidanceText))
    ∧ (∀ content config, env.readFile (kaggleConfigPath env) = some content →
        parseJson content = some config →
        jsonLookup config "username" = some (Json.str u) →
        (authCheck env).1
          = .ok (textResult ("✅ Kaggle API credentials found for user: " ++ u)))
    ∧ (∃ pre post, guidanceText = pre ++ "https://www.kaggle.com/account" ++ post)
    ∧ (∀ m, (authCheck env).1 ≠ Except.error m) := by
  refine ⟨?_, ?_, ?_, ?_, ?_, ?_, ?_⟩
  · intro hh hne; simp [homeDirOf, strOr, hh, hne]
  · intro hh hup hne; simp [homeDirOf, strOr, hh, hup, hne]
  · intro hh hup; simp [homeDirOf, strOr, hh, hup]
  · intro hr; simp [authCheck, hr]
  · intro content config hr hp hu
    simp [authCheck, hr, hp, hu, displayOptJson, jsDisplay]
  · exact ⟨"❌ Kaggle API credentials not found. Please set up your Kaggle API key:\n\n1. Go to ",
      "\n2. Create New API Token\n3. Place the downloaded kaggle.json in ~/.kaggle/", rfl⟩
  · intro m hm
    unfold authCheck at hm
    repeat' split at hm
    all_goals simp at hm

/-- Witness for C2 (amended): in `aliceEnv` the file is found at the
home-relative path and the username is reported; with no file, the
guidance is returned. -/
theorem auth_check_reads_home_credentials_witness :
    (authCheck aliceEnv).1
      = .ok (textResult "✅ Kaggle API credentials found for user: alice")
    ∧ (authCheck baseEnv).1 = .ok (textResult guidanceText) := by
  constructor
  · exact ((auth_check_reads_home_credentials aliceEnv "alice" "" "").2.2.2.2.1
      "\x7b\"username\": \"alice\"\x7d" (Json.obj [("username", Json.str "alice")])
      rfl rfl rfl).trans rfl
  · exact (auth_check_reads_home_credentials baseEnv "" "" "").2.2.2.1 rfl

/-- The `push_notebook` parameters of the missing-metadata scenario. -/
def localPushArgs : Args := { mode := some "local", localPath := some "./nb" }

/-- C3: `push_notebook` in local mode first checks for
`notebook-metadata.json` inside `localPath`; if absent it returns the
encoded error naming the missing file without any external invocation,
and if present the built vector is exactly `kernels push -p <localPath>`. -/
theorem push_notebook_local_requires_metadata (env : Env) (a : Args) (p : String)
    (hm : a.mode = some "local") (hp : a.localPath = some p) (hne : p ≠ "") :
    (env.fileExists (pathJoin p "notebook-metadata.json") = false →
        (handleCall env "push_notebook" (some a)).1
          = Outcome.result (textResult ("Error: " ++ ("notebook-metadata.json not found in " ++ p)))
        ∧ ∀ argv, Event.extRun argv ∉ (handleCall env "push_notebook" (some a)).2)
    ∧ (env.fileExists (pathJoin p "notebook-metadata.json") = true →
        Event.extRun ["kernels", "push", "-p", p]
          ∈ (handleCall env "push_notebook" (some a)).2) := by
  constructor
  · intro hfe
    constructor
    · simp [handleCall, dispatch, encodeOutcome, pushNotebook, strOr, hm, hp, hne, hfe]
    · intro argv
      simp [handleCall, dispatch, encodeOutcome, pushNotebook, strOr, hm, hp, hne, hfe]
  · intro hfe
    rcases hr : runKaggle env ["kernels", "push", "-p", p] with m | result <;>
      simp [handleCall, dispatch, encodeOutcome, pushNotebook, strOr, hm, hp, hne, hfe, hr]

/-- Witness for C3: with no metadata file under `./nb`, the call reports
the missing file and performs no invocation; with the file present, the
push-directory vector is invoked. -/
theorem push_notebook_local_requires_metadata_witness :
    ((handleCall baseEnv "push_notebook" (some localPushArgs)).1
      = Outcome.result (textResult "Error: notebook-metadata.json not found in ./nb"))
    ∧ Event.extRun ["kernels", "push", "-p", "./nb"]
        ∉ (handleCall baseEnv "push_notebook" (some localPushArgs)).2
    ∧ Event.extRun ["kernels", "push", "-p", "./nb"]
        ∈ (handleCall { baseEnv with fileExists := fun _ => true }
            "push_notebook" (some localPushArgs)).2 := by
  refine ⟨?_, ?_, ?_⟩
  · exact (((push_notebook_local_requires_metadata baseEnv localPushArgs "./nb"
      rfl rfl (by decide)).1 rfl).1).trans rfl
  · exact ((push_notebook_local_requires_metadata baseEnv localPushArgs "./nb"
      rfl rfl (by decide)).1 rfl).2 ["kernels", "push", "-p", "./nb"]
  · exact (push_notebook_local_requires_metadata { baseEnv with fileExists := fun _ => true }
      localPushArgs "./nb" rfl rfl (by decide)).2 rfl

/-- C4 counterexample: a present-but-empty `sortBy` is falsy, so the
truthiness guard skips `--sort-by` even though the parameter is present —
the flag is not appended for every present `sortBy`. -/
theorem list_competitions_empty_sortby :
    listCompetitionsArgv (some "general") (some "all") (some "")
      = ["competitions", "list", "-v"]
    ∧ "--sort-by" ∉ listCompetitionsArgv (some "general") (some "all") (some "") := by
  decide

/-- C4 (amended): the built vector omits `--group` for the sentinel
`"general"` and `--category` for `"all"` (the vector coincides with the
absent-parameter vector), includes `--group v` / `--category w` for any
other non-empty value, and appends `--sort-by u` whenever `sortBy` is
present and non-empty. -/
theorem list_competitions_sentinel_flags (g c s : Option String) (v w u : String) :
    (listCompetitionsArgv (some "general") c s = listCompetitionsArgv none c s)
    ∧ (listCompetitionsArgv g (some "all") s = listCompetitionsArgv g none s)
    ∧ (v ≠ "" → v ≠ "general" →
        listCompetitionsArgv (some v) (some "all") none
          = ["competitions", "list", "--group", v, "-v"])
    ∧ (u ≠ "" →
        listCompetitionsArgv (some "general") (some "all") (some u)
          = ["competitions", "list", "--sort-by", u, "-v"])
    ∧ (v ≠ "" → v ≠ "general" → w ≠ "" → w ≠ "all" → u ≠ "" →
        listCompetitionsArgv (some v) (some w) (some u)
          = ["competitions", "list", "--group", v, "--category", w, "--sort-by", u, "-v"]) := by
  refine ⟨?_, ?_, ?_, ?_, ?_⟩
  · simp [listCompetitionsArgv]
  · simp [listCompetitionsArgv]
  · intro hv1 hv2; simp [listCompetitionsArgv, hv1, hv2]
  · intro hu; simp [listCompetitionsArgv, hu]
  · intro hv1 hv2 hw1 hw2 hu
    simp [listCompetitionsArgv, hv1, hv2, hw1, hw2, hu]

/-- Witness for C4 (amended) at the claim's own examples. -/
theorem list_competitions_sentinel_flags_witness :
    listCompetitionsArgv (some "entered") (some "all") none
      = ["competitions", "list", "--group", "entered", "-v"]
    ∧ listCompetitionsArgv (some "general") (some "all") (some "recentlyCreated")
      = ["competitions", "list", "--sort-by", "recentlyCreated", "-v"] := by
  constructor
  · exact (list_competitions_sentinel_flags none none none "entered" "" "").2.2.1
      (by decide) (by decide)
  · exact (list_competitions_sentinel_flags none none none "" "" "recentlyCreated").2.2.2.1
      (by decide)

/-- C5 counterexample: stdout that parses as a JSON *string* is returned
as the parsed string, not as its pretty-printed re-serialization — the
`typeof result === "string"` test cannot tell a parsed JSON string from
raw text. -/
theorem stdout_string_not_reserialized :
    parseJson "\"hi\"" = some (Json.str "hi")
    ∧ formatResult (runKaggleResult "\"hi\"") = "hi"
    ∧ renderJson (Json.str "hi") 0 = "\"hi\""
    ∧ formatResult (runKaggleResult "\"hi\"") ≠ renderJson (Json.str "hi") 0 := by
  refine ⟨rfl, rfl, rfl, ?_⟩
  decide

/-- C5 (amended): for the tools that return stdout directly, the result
text is: stdout verbatim when it does not parse as JSON; the parsed string
itself when it parses as a JSON string; and the two-space pretty-printed
re-serialization when it parses as any non-string JSON value. -/
theorem stdout_format_rule (stdout : String) :
    (parseJson stdout = none → formatResult (runKaggleResult stdout) = stdout)
    ∧ (∀ s, parseJson stdout = some (Json.str s) →
        formatResult (runKaggleResult stdout) = s)
    ∧ (∀ v, parseJson stdout = some v → (∀ s, v ≠ Json.str s) →
        formatResult (runKaggleResult stdout) = renderJson v 0) := by
  refine ⟨?_, ?_, ?_⟩
  · intro h; simp [runKaggleResult, h, formatResult]
  · intro s h; simp [runKaggleResult, h, formatResult]
  · intro v h hns
    have hv : runKaggleResult stdout = v := by simp [runKaggleResult, h]
    rw [hv]
    cases v <;> first | rfl | exact absurd rfl (hns _)

/-- Witness for C5 (amended): raw text comes back verbatim, a JSON object
comes back pretty-printed. -/
theorem stdout_format_rule_witness :
    formatResult (runKaggleResult "not json") = "not json"
    ∧ formatResult (runKaggleResult "\x7b\"a\":1\x7d") = "\x7b\n  \"a\": 1\n\x7d" := by
  constructor
  · exact (stdout_format_rule "not json").1 rfl
  · exact ((stdout_format_rule "\x7b\"a\":1\x7d").2.2 (Json.obj [("a", Json.num 1)]) rfl
      (fun s h => Json.noConfusion h)).trans rfl

/-- Injection of a boolean-or-absent parameter into the runtime value
domain. -/
def optBoolVal : Option Bool → JsVal
  | none => JsVal.undefined
  | some b => JsVal.bool b

/-- C8: over boolean-or-absent parameters, `pull_notebook` appends
`--metadata` exactly when `metadata` is true or absent (`!== false`, with
default true), while `save_notebook_metadata` appends the same flag to the
same base vector exactly when `includeNotebook` is the boolean false —
opposite conditions on the same `!== false` computation. -/
theorem metadata_flag_asymmetry (slug p : String) (b : Option Bool) :
    (pullNotebookArgv slug p (optBoolVal b)
        = ["kernels", "pull", slug, "-p", p] ++ ["--metadata"]
      ↔ (b = none ∨ b = some true))
    ∧ (pullNotebookArgv slug p (optBoolVal b) = ["kernels", "pull", slug, "-p", p]
      ↔ b = some false)
    ∧ (saveNotebookMetadataArgv slug p (optBoolVal b)
        = ["kernels", "pull", slug, "-p", p] ++ ["--metadata"]
      ↔ b = some false)
    ∧ (saveNotebookMetadataArgv slug p (optBoolVal b) = ["kernels", "pull", slug, "-p", p]
      ↔ (b = none ∨ b = some true)) := by
  rcases b with _ | b
  · simp [pullNotebookArgv, saveNotebookMetadataArgv, optBoolVal]
  · cases b <;> simp [pullNotebookArgv, saveNotebookMetadataArgv, optBoolVal]

/-- C9: in the metadata-descriptor, `is_private` and `enable_internet`
(computed with `!== false`) are false exactly for the boolean `false` —
absence, `0`, `null`, `""` or any other value yields true — while
`enable_gpu` (computed with `|| false`) is truthy exactly when the raw
`enableGpu` is truthy, so the three flags default asymmetrically on falsy
non-false inputs. -/
theorem create_metadata_boolean_defaults (now : Nat) (a : Args) :
    ((buildMetadata now a).is_private = true ↔ a.isPrivate ≠ JsVal.bool false)
    ∧ ((buildMetadata now a).enable_internet = true ↔ a.enableInternet ≠ JsVal.bool false)
    ∧ (jsTruthy (buildMetadata now a).enable_gpu = jsTruthy a.enableGpu)
    ∧ (∀ v : JsVal, jsTruthy v = false → v ≠ JsVal.bool false →
        (buildMetadata now { a with isPrivate := v, enableGpu := v, enableInternet := v }).is_private = true
        ∧ (buildMetadata now { a with isPrivate := v, enableGpu := v, enableInternet := v }).enable_internet = true
        ∧ (buildMetadata now { a with isPrivate := v, enableGpu := v, enableInternet := v }).enable_gpu
            = JsVal.bool false) := by
  refine ⟨?_, ?_, ?_, ?_⟩
  · by_cases h : a.isPrivate = JsVal.bool false <;> simp [buildMetadata, h]
  · by_cases h : a.enableInternet = JsVal.bool false <;> simp [buildMetadata, h]
  · unfold buildMetadata jsOrFalse
    by_cases h : jsTruthy a.enableGpu = true
    · rw [if_pos h]
    · rw [if_neg h]
      rw [Bool.not_eq_true] at h
      rw [h]
      rfl
  · intro v hf hne
    refine ⟨?_, ?_, ?_⟩
    · simp [buildMetadata, hne]
    · simp [buildMetadata, hne]
    · simp [buildMetadata, jsOrFalse, hf]

/-- Witness for C9 at the falsy non-false input `0`: both `!== false`
flags come out true while `enable_gpu` comes out false. -/
theorem create_metadata_boolean_defaults_witness :
    (buildMetadata 0 { emptyArgs with isPrivate := JsVal.num 0, enableGpu := JsVal.num 0, enableInternet := JsVal.num 0 }).is_private = true
    ∧ (buildMetadata 0 { emptyArgs with isPrivate := JsVal.num 0, enableGpu := JsVal.num 0, enableInternet := JsVal.num 0 }).enable_internet = true
    ∧ (buildMetadata 0 { emptyArgs with isPrivate := JsVal.num 0, enableGpu := JsVal.num 0, enableInternet := JsVal.num 0 }).enable_gpu
        = JsVal.bool false :=
  (create_metadata_boolean_defaults 0 emptyArgs).2.2.2 (JsVal.num 0) (by decide) (by decide)

end KaggleMcp
